import Mathlib

/-!
Shallow embedding of the KvStore log-structured engine
(src/engine/kvstore/kvstore.rs, src/engine/kvstore/file_operators.rs) and of
the line-framed TCP server loop (src/server.rs).

Modelling conventions:
* A segment file is its character content, kept split at the writer's append
  boundaries (`SegFile`); each appended chunk is one record line ending in a
  newline, and all offsets are byte offsets over the concatenation (every
  modelled character is one byte).
* The data directory is a `Disk`: an association list of segment files keyed
  by file id, plus the structured content of the recovery metadata file
  `.dumpfile` (its JSON codec is irrelevant to the claims, so it is stored
  structurally; `none` means the file does not exist).
* Rust `HashMap`s are association lists with unique keys; `insert` replaces
  in place, iteration and `drain` follow list order (the engine's behaviour
  does not depend on the hash iteration order).
* Every fallible disk WRITE threads a fault schedule `List Bool`: each write
  consumes one entry, `false` makes that write fail with the error of the
  source, and an exhausted (in particular empty) schedule means every write
  succeeds, i.e. a run without I/O errors.  Reads are not faulted.
* A Rust panic (an `unwrap` / `expect` that fires) is modelled as an
  `Except.error` whose message starts with "panic: "; a panicking call
  returns no value, exactly as in the source.
-/

set_option maxRecDepth 2000

namespace KvSpec

/-- Whitespace characters tolerated by serde_json around a value and removed
by `str::trim`. -/
def isWs (c : Char) : Bool := c = ' ' || c = '\n' || c = '\t' || c = '\r'

/-- Drop whitespace from both ends of a character list: `str::trim`, and also
serde_json's tolerance for whitespace around a top-level value. -/
def trimWs (cs : List Char) : List Char :=
  ((cs.dropWhile isWs).reverse.dropWhile isWs).reverse

/-- `BufRead::read_line` starting at the head of `cs`: the characters up to
and including the first newline; everything when no newline remains; nothing
at end of file. -/
def readLine : List Char → List Char
  | [] => []
  | c :: cs => if c = '\n' then [c] else c :: readLine cs

/-- Records persisted in segment files (enum Command in
src/engine/kvstore/mod.rs). -/
inductive Command where
  | Insertion (key value : String)
  | Discard (key : String)
deriving DecidableEq

/-- serde_json::to_string output for `Command`: an externally tagged enum,
fields in declaration order.  Key and value characters are emitted verbatim;
JSON escape sequences are not modelled, and no modelled input contains a
quote, backslash or control character. -/
def encode : Command → List Char
  | .Insertion k v =>
      "\x7b\"Insertion\":\x7b\"key\":\"".data ++ k.data
        ++ "\",\"value\":\"".data ++ v.data ++ "\"\x7d\x7d".data
  | .Discard k =>
      "\x7b\"Discard\":\x7b\"key\":\"".data ++ k.data ++ "\"\x7d\x7d".data

/-- Expect `pat` as the first characters of `cs`; return the remainder. -/
def expectChars : List Char → List Char → Option (List Char)
  | [], rest => some rest
  | _ :: _, [] => none
  | p :: ps, c :: cs => if c = p then expectChars ps cs else none

/-- Scan the body of a JSON string up to the closing quote, returning the body
and the remainder after the quote.  Escape sequences are not modelled (no
modelled string contains a backslash). -/
def scanStr : List Char → Option (List Char × List Char)
  | [] => none
  | c :: cs =>
    if c = '"' then some ([], cs)
    else
      match scanStr cs with
      | some (body, rest) => some (c :: body, rest)
      | none => none

/-- serde_json::from_str for `Command`, restricted to the exact shape produced
by `encode` (the only shape ever written by the engine).  Any other line,
e.g. "oops" or an empty line at end of file, is rejected, just as serde
rejects it. -/
def decodeStrict (cs : List Char) : Option Command :=
  match expectChars "\x7b\"Insertion\":\x7b\"key\":\"".data cs with
  | some r1 =>
    match scanStr r1 with
    | some (k, r2) =>
      match expectChars ",\"value\":\"".data r2 with
      | some r3 =>
        match scanStr r3 with
        | some (v, r4) =>
          match expectChars "\x7d\x7d".data r4 with
          | some [] => some (.Insertion (String.mk k) (String.mk v))
          | _ => none
        | none => none
      | none => none
    | none => none
  | none =>
    match expectChars "\x7b\"Discard\":\x7b\"key\":\"".data cs with
    | some r1 =>
      match scanStr r1 with
      | some (k, r2) =>
        match expectChars "\x7d\x7d".data r2 with
        | some [] => some (.Discard (String.mk k))
        | _ => none
      | none => none
    | none => none

/-- serde_json::from_str applied to a raw line: surrounding whitespace (for
the engine, the trailing newline of a record line) is tolerated. -/
def decodeJson (cs : List Char) : Option Command := decodeStrict (trimWs cs)

/-- Association-list lookup (HashMap::get). -/
def alookup {α β : Type} [DecidableEq α] : List (α × β) → α → Option β
  | [], _ => none
  | (a, b) :: t, k => if a = k then some b else alookup t k

/-- Association-list insert (HashMap::insert): replace in place, else append. -/
def ainsert {α β : Type} [DecidableEq α] : List (α × β) → α → β → List (α × β)
  | [], k, v => [(k, v)]
  | (a, b) :: t, k, v => if a = k then (k, v) :: t else (a, b) :: ainsert t k v

/-- Association-list removal (HashMap::remove); keys are unique so removing
the first hit removes the entry. -/
def aerase {α β : Type} [DecidableEq α] : List (α × β) → α → List (α × β)
  | [], _ => []
  | (a, b) :: t, k => if a = k then t else (a, b) :: aerase t k

/-- Use to locate the command (struct CommandPosition). -/
structure CommandPosition where
  file_id : Nat
  pos : Nat
deriving DecidableEq

/-- A positional segment reader (struct FileReader).  It owns a buffered
handle on the file identified by `file_id`; `seek_pos` is that handle's
current stream position.  The file content itself lives on the `Disk` and is
looked up at read time (`Clone for FileReader` reopens the file by path). -/
structure FileReader where
  file_id : Nat
  seek_pos : Nat
deriving DecidableEq

/-- The append handle on the active segment (struct FileWriter).
`FileWriter::open` always starts `total_size` at 0, even when the file on
disk already has content. -/
structure FileWriter where
  file_id : Nat
  total_size : Nat
deriving DecidableEq

/-- Cyclic segment-id allocator (struct CycleCounter). -/
structure CycleCounter where
  count : Nat
  maximum : Nat
deriving DecidableEq

/-- Iterator::next for CycleCounter: return the current count and advance it
modulo `maximum`.  No check against live ids is performed. -/
def CycleCounter.next (c : CycleCounter) : Nat × CycleCounter :=
  (c.count, { c with count := (c.count + 1) % c.maximum })

/-- Structured content of the `.dumpfile` recovery metadata
(struct PersistentStruct). -/
structure PersistentStruct where
  compaction_threshold : Nat
  frozen_idx_map : List (String × CommandPosition)
  uncompacted_size : Nat
deriving DecidableEq

/-- A segment file's content, split at the writer's append boundaries: the
real file is the concatenation of the chunks.  Every chunk the engine ever
appends is one record line ending in a newline, so reading one line never
crosses a chunk boundary and all byte offsets computed over the
concatenation agree with the real file. -/
abbrev SegFile : Type := List (List Char)

/-- Byte length of a segment file (the stream position of its end). -/
def segLen (f : SegFile) : Nat := (f.map List.length).sum

/-- Seek to byte `pos` of the file and `read_line`: locate the chunk holding
`pos` and read from that character to the chunk's terminating newline; past
the end of file the read returns nothing. -/
def fileReadAt : SegFile → Nat → List Char
  | [], _ => []
  | chunk :: rest, pos =>
    if pos < chunk.length then readLine (chunk.drop pos)
    else fileReadAt rest (pos - chunk.length)

/-- The data directory: the segment files (keyed by numeric file id) and the
`.dumpfile` (none when absent). -/
structure Disk where
  files : List (Nat × SegFile)
  dump : Option PersistentStruct
deriving DecidableEq

def Disk.getFile (d : Disk) (id : Nat) : Option SegFile :=
  alookup d.files id

def Disk.setFile (d : Disk) (id : Nat) (content : SegFile) : Disk :=
  { d with files := ainsert d.files id content }

/-- fs::remove_file on a segment file. -/
def Disk.removeSeg (d : Disk) (id : Nat) : Disk :=
  { d with files := aerase d.files id }

/-- Total byte size of all segment files in the directory (the `.dumpfile` is
not a segment file). -/
def segTotalSize (d : Disk) : Nat :=
  (d.files.map fun p => segLen p.2).sum

/-- mod config: MAX_FILE_ID = 1 << 16. -/
def MAX_FILE_ID : Nat := 1 <<< 16

/-- mod config: MAX_FILE_SIZE = 100 * 1 << 20 (Rust precedence: (100*1) << 20,
which equals 100 * (1 << 20)). -/
def MAX_FILE_SIZE : Nat := 100 * (1 <<< 20)

/-- Outcome of the next fallible disk write under a fault schedule; an
exhausted schedule always succeeds. -/
def takeFault : List Bool → Bool × List Bool
  | [] => (true, [])
  | b :: r => (b, r)

/-- FileWriter::open: open create-or-append.  An existing segment file keeps
its content, a missing one is created empty; `total_size` restarts at 0 and
the stream position is the end of the file. -/
def FileWriter.open_seg (d : Disk) (id : Nat) : Disk × FileWriter :=
  let d' := match d.getFile id with
    | some _ => d
    | none => d.setFile id []
  (d', { file_id := id, total_size := 0 })

/-- FileReader::open (read only): fails when the segment file is absent. -/
def FileReader.open_seg (d : Disk) (id : Nat) : Except String FileReader :=
  match d.getFile id with
  | some _ => .ok { file_id := id, seek_pos := 0 }
  | none => .error "Failed to open file for reading"

/-- FileWriter::append_command: serialize the record, push a newline, take the
stream position (the current end of the segment, the writer is in append
mode), write, and advance `total_size` by the bytes written.  A faulted write
leaves the file untouched and returns the write error.  Writing through a
handle whose file has been unlinked is not exercised by any modelled
scenario; it is modelled as leaving the directory unchanged. -/
def FileWriter.append_command (w : FileWriter) (d : Disk) (c : Command)
    (f : List Bool) :
    Except String (Disk × FileWriter × CommandPosition) × List Bool :=
  let line := encode c ++ ['\n']
  let stream_pos := segLen ((d.getFile w.file_id).getD [])
  let (ok, f') := takeFault f
  if ok then
    let d' := match d.getFile w.file_id with
      | some cs => d.setFile w.file_id (cs ++ [line])
      | none => d
    (.ok (d', { w with total_size := w.total_size + line.length },
          { file_id := w.file_id, pos := stream_pos }), f')
  else
    (.error "Failed to write file.", f')

/-- FileWriter::append_serialized_command: same as `append_command` but the
line is already serialized (compaction copies raw lines, which already end in
a newline). -/
def FileWriter.append_serialized_command (w : FileWriter) (d : Disk)
    (line : List Char) (f : List Bool) :
    Except String (Disk × FileWriter × CommandPosition) × List Bool :=
  let stream_pos := segLen ((d.getFile w.file_id).getD [])
  let (ok, f') := takeFault f
  if ok then
    let d' := match d.getFile w.file_id with
      | some cs => d.setFile w.file_id (cs ++ [line])
      | none => d
    (.ok (d', { w with total_size := w.total_size + line.length },
          { file_id := w.file_id, pos := stream_pos }), f')
  else
    (.error "Failed to write str", f')

/-- FileReader::readline_at on the stored handle (`&mut self`): seek to `pos`,
read one line, return it; the handle's position advances past the line.  The
stored handle keeps its file descriptor, but every modelled call happens
while the file still exists, so the content is looked up on the disk. -/
def FileReader.readline_at (r : FileReader) (d : Disk) (pos : Nat) :
    Except String (List Char × FileReader) :=
  match d.getFile r.file_id with
  | none => .error "Error to get line."
  | some cs =>
    let line := fileReadAt cs pos
    .ok (line, { r with seek_pos := pos + line.length })

/-- FileReader::query_command (`&self`): clone the reader — `Clone` reopens
the file by path and PANICS (`expect`) when the file is gone — then seek,
read one line, trim and decode it.  The stored handle is untouched. -/
def FileReader.query_command (r : FileReader) (d : Disk) (pos : Nat) :
    Except String Command :=
  match d.getFile r.file_id with
  | none => .error "panic: Failed to open file"
  | some cs =>
    match decodeJson (fileReadAt cs pos) with
    | some c => .ok c
    | none => .error "Failed to parse json"

/-- CommandIter (impl Iterator for CommandIter): starting at offset `off`,
repeatedly take the stream position, read one line and decode it; ANY failure
to decode — end of file, but also a malformed line — ends the iteration
silently (`.ok()` in the source conflates the two).  The recursion is
structural on a fuel argument so that it reduces definitionally; every step
consumes at least one character, so starting the fuel above the file length
(as `command_iter` does) it can never run out before the file does. -/
def command_iter_core (id : Nat) (cs : SegFile) : Nat → Nat →
    List (Command × CommandPosition)
  | 0, _ => []
  | fuel + 1, off =>
    let line := fileReadAt cs off
    match decodeJson line with
    | none => []
    | some cmd =>
        (cmd, { file_id := id, pos := off }) ::
          command_iter_core id cs fuel (off + line.length)

/-- FileReader::command_iter: clone the reader and iterate from offset 0.
All call sites run while the file exists, so the content lookup defaults to
the empty file only in unreachable cases. -/
def FileReader.command_iter (r : FileReader) (d : Disk) :
    List (Command × CommandPosition) :=
  let cs := (d.getFile r.file_id).getD []
  command_iter_core r.file_id cs (segLen cs + 1) 0

/-- The engine state behind the lock (struct KvStoreInner), together with the
data directory it operates on (`current_dir` is the single modelled
directory, so only its content `disk` is carried). -/
structure KvState where
  idx_map : List (String × CommandPosition)
  readers : List (Nat × FileReader)
  writer : FileWriter
  uncompacted_num : Nat
  id_generator : CycleCounter
  compaction_threshold : Nat
  disk : Disk
deriving DecidableEq

namespace KvStoreInner

/-- KvStoreInner::replay: fold the command iterator of one segment over the
index; a re-inserted key bumps `uncompacted` by 1, a tombstone removes the
key and bumps it by 2. -/
def replay (idx0 : List (String × CommandPosition)) (reader : FileReader)
    (d : Disk) (uncompacted0 : Nat) :
    List (String × CommandPosition) × Nat :=
  (reader.command_iter d).foldl
    (fun acc cp =>
      match cp.1 with
      | .Insertion key _ =>
          if (alookup acc.1 key).isSome then (ainsert acc.1 key cp.2, acc.2 + 1)
          else (ainsert acc.1 key cp.2, acc.2)
      | .Discard key => (aerase acc.1 key, acc.2 + 2))
    (idx0, uncompacted0)

/-- KvStoreInner::create_new: open writer and reader on a fresh segment 0,
write an empty `.dumpfile`, start the cyclic counter at 1 and the threshold
at 64. -/
def create_new (d : Disk) : KvState :=
  let (d1, w) := FileWriter.open_seg d 0
  let readers : List (Nat × FileReader) :=
    [(0, ({ file_id := 0, seek_pos := 0 } : FileReader))]
  let ps : PersistentStruct :=
    { compaction_threshold := 64, frozen_idx_map := [], uncompacted_size := 0 }
  let d2 : Disk := { d1 with dump := some ps }
  { idx_map := [], readers := readers, writer := w, uncompacted_num := 0,
    id_generator := { count := 1, maximum := MAX_FILE_ID },
    compaction_threshold := 64, disk := d2 }

/-- Insert into an ascending list (log_file_lists ends in sort_unstable). -/
def insertSorted (n : Nat) : List Nat → List Nat
  | [] => [n]
  | m :: t => if n ≤ m then n :: m :: t else m :: insertSorted n t

/-- KvStoreInner::log_file_lists: the numeric stems of the `.log` files in the
directory, sorted ascending. -/
def log_file_lists (d : Disk) : List Nat :=
  (d.files.map Prod.fst).foldr insertSorted []

/-- KvStoreInner::retrieving_from_disk: restore the frozen index, uncompacted
count and threshold from `.dumpfile`, open a reader on every segment, take
the LARGEST id as the active segment, replay only that segment on top of the
frozen index, open the writer on it, and seed the cyclic counter AT that id
(`CycleCounter::new(unmerged_file_id, MAX_FILE_ID)`).  `max().unwrap()` on an
empty segment list panics. -/
def retrieving_from_disk (d : Disk) : Except String KvState :=
  match d.dump with
  | none => .error "failed to restore from dump"
  | some ps =>
    let ids := log_file_lists d
    let readers : List (Nat × FileReader) :=
      ids.map fun i => (i, ({ file_id := i, seek_pos := 0 } : FileReader))
    match ids.max? with
    | none => .error "panic: called max on an empty iterator"
    | some unmerged_file_id =>
      match alookup readers unmerged_file_id with
      | none => .error "panic: missing reader"
      | some r =>
        let (idx, unc) := replay ps.frozen_idx_map r d ps.uncompacted_size
        let (d1, w) := FileWriter.open_seg d unmerged_file_id
        .ok { idx_map := idx, readers := readers, writer := w,
              uncompacted_num := unc,
              id_generator := { count := unmerged_file_id, maximum := MAX_FILE_ID },
              compaction_threshold := ps.compaction_threshold, disk := d1 }

/-- KvStoreInner::open: recover through `.dumpfile` when it exists, otherwise
create a fresh store. -/
def open_store (d : Disk) : Except String KvState :=
  if d.dump.isSome then retrieving_from_disk d else .ok (create_new d)

/-- KvStoreInner::get, with the state threaded explicitly to mirror the
`&self` receiver: look the key up in the index, fetch the reader for its
segment, query the record through a cloned handle, and check that it is an
Insertion for the queried key.  Every branch hands the state back. -/
def getS (st : KvState) (key : String) :
    Except String (Option String) × KvState :=
  match alookup st.idx_map key with
  | none => (.ok none, st)
  | some cmd_pos =>
    match alookup st.readers cmd_pos.file_id with
    | none => (.error ("Failed to find file, id:" ++ toString cmd_pos.file_id), st)
    | some entry =>
      match entry.query_command st.disk cmd_pos.pos with
      | .error e => (.error e, st)
      | .ok (.Insertion ikey value) =>
        if ikey = key then (.ok (some value), st)
        else (.error ("Key mismatched. Actual: " ++ ikey ++ ", Expected: " ++ key), st)
      | .ok (.Discard dkey) => (.error ("Mismatched command: Discard " ++ dkey), st)

/-- Result of KvStoreInner::get alone. -/
def get (st : KvState) (key : String) : Except String (Option String) :=
  (getS st key).1

/-- KvStoreInner::need_compaction. -/
def need_compaction (st : KvState) : Bool :=
  st.uncompacted_num > st.compaction_threshold

/-- Accumulator of the compaction drain loop: the pieces of `self` the loop
mutates in place (directory, readers, id generator) and its locals (the new
index, the new reader map, the current output segment and writer, the fault
schedule). -/
structure CompactionLoop where
  d : Disk
  readers : List (Nat × FileReader)
  gen : CycleCounter
  new_idx : List (String × CommandPosition)
  new_readers : List (Nat × FileReader)
  fid : Nat
  w : FileWriter
  faults : List Bool

/-- The drain loop of KvStoreInner::compaction: for every index entry, read
the raw line at its position (mutating that reader's seek position), append
it to the compaction writer, record the new position, and seal/rotate the
output segment when it exceeds MAX_FILE_SIZE.  An error carries the
partially mutated accumulator: `drain` has already emptied `self.idx_map`,
and the caller must fold the mutated readers, generator and directory back
into the state. -/
def compaction_drain : List (String × CommandPosition) → CompactionLoop →
    Except (String × CompactionLoop) CompactionLoop
  | [], acc => .ok acc
  | (key, cmd_pos) :: rest, acc =>
    match alookup acc.readers cmd_pos.file_id with
    | none => .error ("Failed to find file, id:" ++ toString cmd_pos.file_id ++ ".", acc)
    | some entry =>
      match entry.readline_at acc.d cmd_pos.pos with
      | .error e => .error (e, acc)
      | .ok (line, entry') =>
        let acc1 : CompactionLoop :=
          { acc with readers := ainsert acc.readers cmd_pos.file_id entry' }
        match acc1.w.append_serialized_command acc1.d line acc1.faults with
        | (.error e, f') => .error (e, { acc1 with faults := f' })
        | (.ok (d', w', pos), f') =>
          let acc2 : CompactionLoop :=
            { acc1 with d := d', w := w', faults := f',
                        new_idx := ainsert acc1.new_idx key pos }
          if acc2.w.total_size > MAX_FILE_SIZE then
            match FileReader.open_seg acc2.d acc2.fid with
            | .error e => .error (e, acc2)
            | .ok rd =>
              let (nid, gen') := acc2.gen.next
              let (d2, w2) := FileWriter.open_seg acc2.d nid
              compaction_drain rest
                { acc2 with new_readers := ainsert acc2.new_readers acc2.fid rd,
                            gen := gen', fid := nid, d := d2, w := w2 }
          else compaction_drain rest acc2

/-- fs::remove_file over the old reader map, in map order; a missing file is
an error (carrying the partially cleaned directory). -/
def removeSegs (d : Disk) : List Nat → Except (String × Disk) Disk
  | [] => .ok d
  | id :: rest =>
    match d.getFile id with
    | none => .error ("Failed to remove outdated file", d)
    | some _ => removeSegs (d.removeSeg id) rest

/-- KvStoreInner::compaction: allocate an output segment from the cyclic
counter (no liveness check), drain the whole index through raw line copies,
install the new writer/index/readers, reset `uncompacted` to 0, double the
threshold, rewrite `.dumpfile`, and only then delete every file of the OLD
reader map.  Errors leave `self` as mutated so far (in particular the index
has been emptied by `drain`). -/
def compactionF (st : KvState) (f : List Bool) :
    Except String Unit × KvState × List Bool :=
  let (fid0, gen1) := st.id_generator.next
  let (d1, w1) := FileWriter.open_seg st.disk fid0
  let init : CompactionLoop :=
    { d := d1, readers := st.readers, gen := gen1, new_idx := [],
      new_readers := [], fid := fid0, w := w1, faults := f }
  match compaction_drain st.idx_map init with
  | .error (e, acc) =>
      (.error e,
       { st with idx_map := [], readers := acc.readers,
                 id_generator := acc.gen, disk := acc.d },
       acc.faults)
  | .ok acc =>
    match FileReader.open_seg acc.d acc.fid with
    | .error e =>
        (.error e,
         { st with idx_map := [], readers := acc.readers,
                   id_generator := acc.gen, disk := acc.d },
         acc.faults)
    | .ok rd =>
      let new_readers := ainsert acc.new_readers acc.fid rd
      let thr := st.compaction_threshold * 2
      let ps : PersistentStruct :=
        { compaction_threshold := thr, frozen_idx_map := acc.new_idx,
          uncompacted_size := 0 }
      let d2 : Disk := { acc.d with dump := some ps }
      match removeSegs d2 (acc.readers.map Prod.fst) with
      | .error (e, d3) =>
          (.error e,
           { idx_map := acc.new_idx, readers := new_readers, writer := acc.w,
             uncompacted_num := 0, id_generator := acc.gen,
             compaction_threshold := thr, disk := d3 },
           acc.faults)
      | .ok d3 =>
          (.ok (),
           { idx_map := acc.new_idx, readers := new_readers, writer := acc.w,
             uncompacted_num := 0, id_generator := acc.gen,
             compaction_threshold := thr, disk := d3 },
           acc.faults)

/-- Tail of KvStoreInner::set after the append/insert and the rotation check:
run compaction when `uncompacted` exceeds the threshold. -/
def set_tail (st : KvState) (f : List Bool) :
    Except String Unit × KvState × List Bool :=
  if need_compaction st then compactionF st f else (.ok (), st, f)

/-- KvStoreInner::set: append the Insertion record FIRST, then insert into
the index (bumping `uncompacted` when an entry was replaced), then rotate
into a freshly allocated segment when the writer exceeds MAX_FILE_SIZE, then
compact when needed.  A failed append leaves the state untouched; later
failures leave the state as mutated so far. -/
def setF (st : KvState) (key value : String) (f : List Bool) :
    Except String Unit × KvState × List Bool :=
  let command := Command.Insertion key value
  match st.writer.append_command st.disk command f with
  | (.error e, f') => (.error e, st, f')
  | (.ok (d1, w1, pos), f') =>
    let prev := alookup st.idx_map key
    let st1 : KvState :=
      { st with disk := d1, writer := w1,
                idx_map := ainsert st.idx_map key pos,
                uncompacted_num :=
                  if prev.isSome then st.uncompacted_num + 1
                  else st.uncompacted_num }
    if st1.writer.total_size > MAX_FILE_SIZE then
      let (next_id, gen') := st1.id_generator.next
      let (d2, w2) := FileWriter.open_seg st1.disk next_id
      let st2 : KvState := { st1 with id_generator := gen', disk := d2, writer := w2 }
      match FileReader.open_seg d2 next_id with
      | .error e => (.error e, st2, f')
      | .ok rd =>
          set_tail { st2 with readers := ainsert st2.readers next_id rd } f'
    else set_tail st1 f'

/-- KvStoreInner::remove: check membership first; for a present key append
the Discard record and only on success remove the key from the index
(`uncompacted_num` is NOT touched); for an absent key fail with KeyNotFound
without writing anything (the fault schedule is not consumed). -/
def removeF (st : KvState) (key : String) (f : List Bool) :
    Except String Unit × KvState × List Bool :=
  if (alookup st.idx_map key).isSome then
    match st.writer.append_command st.disk (Command.Discard key) f with
    | (.ok (d1, w1, _), f') =>
        (.ok (),
         { st with disk := d1, writer := w1, idx_map := aerase st.idx_map key },
         f')
    | (.error _, f') => (.error "Failed to make record onto disk.", st, f')
  else (.error ("Key: " ++ key ++ " not found."), st, f)

/-- KvStoreInner::set on a fault-free run. -/
def set (st : KvState) (key value : String) : Except String Unit × KvState :=
  let r := setF st key value []
  (r.1, r.2.1)

/-- KvStoreInner::remove on a fault-free run. -/
def remove (st : KvState) (key : String) : Except String Unit × KvState :=
  let r := removeF st key []
  (r.1, r.2.1)

/-- KvStoreInner::compaction on a fault-free run. -/
def compaction (st : KvState) : Except String Unit × KvState :=
  let r := compactionF st []
  (r.1, r.2.1)

/-- KvsEngine::flush for KvStore (the default implementation: a no-op). -/
def flush (_st : KvState) : Except String Unit := .ok ()

end KvStoreInner

/-- A public mutation issued against the engine. -/
inductive Op where
  | setOp (key value : String)
  | removeOp (key : String)
deriving DecidableEq

/-- Apply one mutation on a fault-free run. -/
def applyOp (st : KvState) : Op → Except String Unit × KvState
  | .setOp k v => KvStoreInner.set st k v
  | .removeOp k => KvStoreInner.remove st k

/-- Run a list of mutations, collecting each operation's result; as in the
source, a caller keeps the engine and may keep calling after an error. -/
def runOps (st : KvState) : List Op → List (Except String Unit) × KvState
  | [] => ([], st)
  | op :: rest =>
    let (r, st1) := applyOp st op
    let (rs, st2) := runOps st1 rest
    (r :: rs, st2)

/-- Wire requests (enum Instruction in src/lib.rs). -/
inductive Instruction where
  | Set (key value : String)
  | Get (key : String)
  | Rm (key : String)
deriving DecidableEq

/-- Wire responses (enum Response in src/lib.rs). -/
inductive Response where
  | Ok (s : String)
  | Error (s : String)
deriving DecidableEq

/-- serde_json::from_str for `Instruction`, restricted like `decodeStrict` to
the exact shapes the client serializer produces; anything else is rejected,
as serde rejects it. -/
def decodeInstructionStrict (cs : List Char) : Option Instruction :=
  match expectChars "\x7b\"Set\":\x7b\"key\":\"".data cs with
  | some r1 =>
    match scanStr r1 with
    | some (k, r2) =>
      match expectChars ",\"value\":\"".data r2 with
      | some r3 =>
        match scanStr r3 with
        | some (v, r4) =>
          match expectChars "\x7d\x7d".data r4 with
          | some [] => some (.Set (String.mk k) (String.mk v))
          | _ => none
        | none => none
      | none => none
    | none => none
  | none =>
    match expectChars "\x7b\"Get\":\x7b\"key\":\"".data cs with
    | some r1 =>
      match scanStr r1 with
      | some (k, r2) =>
        match expectChars "\x7d\x7d".data r2 with
        | some [] => some (.Get (String.mk k))
        | _ => none
      | none => none
    | none =>
      match expectChars "\x7b\"Rm\":\x7b\"key\":\"".data cs with
      | some r1 =>
        match scanStr r1 with
        | some (k, r2) =>
          match expectChars "\x7d\x7d".data r2 with
          | some [] => some (.Rm (String.mk k))
          | _ => none
        | none => none
      | none => none

/-- serde_json::from_str on a raw request line, tolerating surrounding
whitespace. -/
def decodeInstruction (cs : List Char) : Option Instruction :=
  decodeInstructionStrict (trimWs cs)

/-- The dispatch closure of KvServer::run: Get maps a missing key to the
SUCCESS payload "Key: <k> not found", Set and Rm map success to the empty
payload, and any engine error becomes an Error response carrying the error's
message.  After the dispatch the server calls `engine.flush().unwrap()`,
which for KvStore is the no-op default. -/
def dispatch (st : KvState) (ins : Instruction) : Response × KvState :=
  match ins with
  | .Get key =>
    let (r, st') := KvStoreInner.getS st key
    (match r with
     | .ok x => Response.Ok (x.getD ("Key: " ++ key ++ " not found"))
     | .error e => Response.Error e, st')
  | .Set key value =>
    let r := KvStoreInner.setF st key value []
    (match r.1 with
     | .ok _ => Response.Ok ""
     | .error e => Response.Error e, r.2.1)
  | .Rm key =>
    let r := KvStoreInner.removeF st key []
    (match r.1 with
     | .ok _ => Response.Ok ""
     | .error e => Response.Error e, r.2.1)

/-- CommandServer::run handling of the lines of one accepted connection: each
line is decoded with `serde_json::from_str(..).unwrap()`, so a line that does
not decode PANICS the thread running the accept loop — it does not merely
close the connection. -/
def processConn (st : KvState) : List String →
    Except String (KvState × List Response)
  | [] => .ok (st, [])
  | line :: rest =>
    match decodeInstruction line.data with
    | none => .error "panic: malformed instruction line"
    | some ins =>
      let (resp, st1) := dispatch st ins
      match processConn st1 rest with
      | .ok (st2, rs) => .ok (st2, resp :: rs)
      | .error e => .error e

/-- The accept loop of CommandServer::run handles connections sequentially on
the one thread that called it; a panic while serving any connection
terminates the loop, so no later connection is ever served. -/
def processConns (st : KvState) : List (List String) →
    Except String (KvState × List (List Response))
  | [] => .ok (st, [])
  | conn :: rest =>
    match processConn st conn with
    | .error e => .error e
    | .ok (st1, rs) =>
      match processConns st1 rest with
      | .ok (st2, rss) => .ok (st2, rs :: rss)
      | .error e => .error e

/-- An empty data directory. -/
def disk0 : Disk := { files := [], dump := none }

/-- A freshly created store on an empty directory. -/
def stFresh : KvState := KvStoreInner.create_new disk0

/-- Session 1: one successful `set "k" "v0"` on the fresh store. -/
def stA : KvState := (KvStoreInner.set stFresh "k" "v0").2

/-- The directory after closing session 1 (drop flushes; the writer is
unbuffered, so the directory is exactly the engine's view). -/
def disk1 : Disk := stA.disk

/-- Session 2: the engine recovered from `disk1`.  `open_store` succeeds here
(asserted by the claim theorems); the fallback branch is never taken. -/
def st2 : KvState :=
  match KvStoreInner.open_store disk1 with
  | .ok s => s
  | .error _ => stFresh

/-- 65 overwriting sets of the same key: enough to push `uncompacted_num`
past the threshold of 64, so the 65th set triggers compaction. -/
def ops65 : List Op := List.replicate 65 (Op.setOp "k" "w")

/-- Session 2 run: the per-operation results and the final state. -/
def run65 : List (Except String Unit) × KvState := runOps st2 ops65

/-- The engine state at the end of session 2. -/
def stFin : KvState := run65.2

/-- The directory after closing session 2. -/
def disk2 : Disk := stFin.disk

/-- 65 sets of the same key on a FRESH store: the first is not an overwrite,
so `uncompacted_num` ends at 64 and no compaction has run yet. -/
def st65 : KvState := (runOps stFresh (List.replicate 65 (Op.setOp "k" "w"))).2

/-- A 66th set under a fault schedule whose first write (the set's own
append) succeeds and whose second write (the first raw-line copy of the
compaction triggered by this set) fails. -/
def c6run : Except String Unit × KvState × List Bool :=
  KvStoreInner.setF st65 "k" "w" [true, false]

/-- `remove "k"` after session 1's set: the probe for C5. -/
def c5run : Except String Unit × KvState := KvStoreInner.remove stA "k"

/-- A segment whose first line is malformed and whose second line is a valid
Insertion record. -/
def badSegment : SegFile :=
  ["oops\n".data, encode (Command.Insertion "a" "b") ++ ['\n']]

/-- The same segment without the malformed first line. -/
def goodSegment : SegFile := [encode (Command.Insertion "a" "b") ++ ['\n']]

/-- Directory holding only `badSegment` as segment 0. -/
def diskBad : Disk := { files := [(0, badSegment)], dump := none }

/-- Directory holding only `goodSegment` as segment 0. -/
def diskGood : Disk := { files := [(0, goodSegment)], dump := none }

/-- A reader on segment 0. -/
def reader0 : FileReader := { file_id := 0, seek_pos := 0 }

/-- A serialized Get request for key "k". -/
def getLine : String := "\x7b\"Get\":\x7b\"key\":\"k\"\x7d\x7d"

/-- A connection that sends one malformed request line. -/
def connBad : List String := ["oops"]

/-- A connection that sends one well-formed Get request. -/
def connGood : List String := [getLine]

/-- C1: the claim that recovery reproduces the observable mapping FAILS on
the code.  Concrete run: open a fresh directory, set "k" := "v0", close;
reopen (get "k" = Some "v0"), then perform 65 overwriting sets — every one
returns Ok, and the 65th triggers compaction.  Because the cyclic counter
was seeded AT the active segment id on reopen, compaction writes its output
into segment 0 and then deletes segment 0 as an "old" file: the directory
ends with no segment files at all, and reopening it panics
(`max().unwrap()` on the empty segment list) instead of yielding an engine
that reproduces the mapping. -/
theorem c1_recovery_fails :
    run65.1 = List.replicate 65 (Except.ok ()) ∧
    KvStoreInner.get st2 "k" = .ok (some "v0") ∧
    disk2.files = [] ∧
    KvStoreInner.open_store disk2 = .error "panic: called max on an empty iterator" := by
  refine ⟨?_, ?_, ?_, ?_⟩ <;> rfl

/-- C2: the claim that a key whose last Ok mutation was `set "k" "w"` then
satisfies get "k" = Some "w" FAILS on the code.  Same run as C1: on the
reopened engine all 65 sets of "k" return Ok and no later mutation of "k"
happens, yet get "k" afterwards panics (FileReader::clone reopens the
segment file that compaction just deleted) instead of returning
Some "w". -/
theorem c2_get_after_ok_set_fails :
    run65.1 = List.replicate 65 (Except.ok ()) ∧
    KvStoreInner.get stFin "k" = .error "panic: Failed to open file" := by
  refine ⟨?_, ?_⟩ <;> rfl

/-- C3: the claim that a successful compaction preserves the observable
mapping FAILS on the code.  On the reopened engine `st2` (a reachable state:
open, set, close, open), compaction returns Ok and the on-disk segment total
does shrink, but get "k" flips from Ok (Some "v0") to a panic, because the
compaction output segment reused the live active id and its file was then
deleted. -/
theorem c3_compaction_breaks_mapping :
    (KvStoreInner.compaction st2).1 = .ok () ∧
    KvStoreInner.get st2 "k" = .ok (some "v0") ∧
    KvStoreInner.get (KvStoreInner.compaction st2).2 "k"
      = .error "panic: Failed to open file" ∧
    segTotalSize (KvStoreInner.compaction st2).2.disk ≤ segTotalSize st2.disk := by
  refine ⟨?_, ?_, ?_, ?_⟩
  · rfl
  · rfl
  · rfl
  · decide

/-- C4: the claim that every freshly allocated segment id is not already a
key of the readers map FAILS on the code.  `CycleCounter::next` performs no
membership check, and after reopening a directory the counter is seeded AT
the active segment's id: on the reopened engine `st2` the very first
allocation returns the active segment's id, which is a key of `readers`. -/
theorem c4_alloc_returns_live_id :
    (st2.id_generator.next).1 = st2.writer.file_id ∧
    (alookup st2.readers (st2.id_generator.next).1).isSome = true := by
  refine ⟨?_, ?_⟩ <;> rfl

/-- C5: the claim that every successful remove increases `uncompacted` by
exactly 2 FAILS on the code: `KvStoreInner::remove` never touches
`uncompacted_num`.  Concrete run: fresh store, set "k" := "v0", then
remove "k" returns Ok and the counter stays at 0 instead of becoming 2. -/
theorem c5_remove_keeps_uncompacted :
    c5run.1 = .ok () ∧
    stA.uncompacted_num = 0 ∧
    c5run.2.uncompacted_num = 0 := by
  refine ⟨?_, ?_, ?_⟩ <;> rfl

/-- C6 counterexample: a `set` that returns an error CAN leave the in-memory
index changed.  On a fresh store after 65 sets of "k" (uncompacted = 64), a
66th set whose own append succeeds triggers compaction; when the
compaction's raw-line copy fails, `drain` has already emptied the index:
set returns an error and the index went from containing "k" to empty. -/
theorem c6_failed_set_mutates_index :
    c6run.1 = .error "Failed to write str" ∧
    (alookup st65.idx_map "k").isSome = true ∧
    c6run.2.1.idx_map = [] := by
  refine ⟨?_, ?_, ?_⟩ <;> rfl

/-- C6 amended: if the INITIAL append of the record fails, `set` and `remove`
return an error with the in-memory state unchanged, and `remove` of an
absent key fails with KeyNotFound without consuming any write (no record is
appended) and without modifying any state; but an error later in `set`
(during rotation or compaction) may leave the index changed — a compaction
that fails mid-drain leaves it empty. -/
theorem c6_failed_append_preserves_state (st : KvState) (key value : String)
    (fs : List Bool) :
    (KvStoreInner.setF st key value [false]).1 = .error "Failed to write file." ∧
    (KvStoreInner.setF st key value [false]).2.1 = st ∧
    (KvStoreInner.removeF st key [false]).2.1 = st ∧
    (alookup st.idx_map key = none →
      KvStoreInner.removeF st key fs
        = (.error ("Key: " ++ key ++ " not found."), st, fs)) := by
  refine ⟨rfl, rfl, ?_, ?_⟩
  · by_cases h : (alookup st.idx_map key).isSome
    · simp [KvStoreInner.removeF, FileWriter.append_command, takeFault, h]
    · simp [KvStoreInner.removeF, h]
  · intro h
    simp [KvStoreInner.removeF, h]

/-- C6 witness: the amended theorem applied to the fresh store and the absent
key "zzz". -/
theorem c6_failed_append_preserves_state_witness :
    KvStoreInner.removeF stFresh "zzz" []
      = (.error ("Key: " ++ "zzz" ++ " not found."), stFresh, []) :=
  (c6_failed_append_preserves_state stFresh "zzz" "w" []).2.2.2 (by rfl)

/-- C7: the claim that a malformed line is a fatal recovery error FAILS on
the code.  `CommandIter::next` discards the decode error with `.ok()`, so
iteration — and hence replay — silently STOPS at the first malformed line:
replaying a segment whose first line is "oops" followed by a valid Insertion
record returns normally with an EMPTY index (even the valid record is
dropped), while the same segment without the malformed line yields the
record. -/
theorem c7_replay_swallows_malformed :
    decodeJson "oops".data = none ∧
    KvStoreInner.replay [] reader0 diskBad 0 = ([], 0) ∧
    KvStoreInner.replay [] reader0 diskGood 0
      = ([("a", { file_id := 0, pos := 0 })], 0) := by
  refine ⟨?_, ?_, ?_⟩ <;> rfl

/-- C8: for every key absent from the store, a Get request yields the SUCCESS
response Ok "Key: <k> not found" while an Rm request yields the error
response Error "Key: <k> not found." — exactly as the server dispatch and
the engine's remove produce them.  Confirmed. -/
theorem c8_missing_key_protocol (st : KvState) (key : String)
    (h : alookup st.idx_map key = none) :
    dispatch st (Instruction.Get key)
      = (Response.Ok ("Key: " ++ key ++ " not found"), st) ∧
    dispatch st (Instruction.Rm key)
      = (Response.Error ("Key: " ++ key ++ " not found."), st) := by
  constructor
  · simp [dispatch, KvStoreInner.getS, h]
  · simp [dispatch, KvStoreInner.removeF, h]

/-- C8 witness: the protocol responses for the absent key "x" on the fresh
store. -/
theorem c8_missing_key_protocol_witness :
    dispatch stFresh (Instruction.Get "x")
      = (Response.Ok ("Key: " ++ "x" ++ " not found"), stFresh) ∧
    dispatch stFresh (Instruction.Rm "x")
      = (Response.Error ("Key: " ++ "x" ++ " not found."), stFresh) :=
  c8_missing_key_protocol stFresh "x" (by rfl)

/-- C9: the claim that a malformed request line terminates only that
connection FAILS on the code.  The accept loop runs connections sequentially
on one thread and decodes each line with `unwrap()`: a malformed line panics
the loop, so a later well-formed connection — which on its own would be
served with Ok "v0" — is never served at all. -/
theorem c9_malformed_line_kills_server :
    processConns stA [connBad, connGood]
      = .error "panic: malformed instruction line" ∧
    processConn stA connGood = .ok (stA, [Response.Ok "v0"]) := by
  refine ⟨?_, ?_⟩ <;> rfl

/-- C10: `get` leaves the entire engine state — index, readers, writer,
uncompacted counter, id generator, threshold and the directory — unchanged,
and therefore two consecutive gets with no intervening mutation return the
same result.  Confirmed: `get` reads through a cloned handle and every
branch hands the state back untouched. -/
theorem c10_get_is_read_only (st : KvState) (key : String) :
    (KvStoreInner.getS st key).2 = st ∧
    (KvStoreInner.getS (KvStoreInner.getS st key).2 key).1
      = (KvStoreInner.getS st key).1 := by
  have h2 : (KvStoreInner.getS st key).2 = st := by
    unfold KvStoreInner.getS
    repeat' split
    all_goals rfl
  exact ⟨h2, by rw [h2]⟩

end KvSpec
